import Mathlib

/-!
Verification of the pyarena log tracker (src/pyarena/arena_log.py) against its
specification. The Python module is shallowly embedded: filesystem paths are
lists of components, the watchdog observer world is an explicit state threaded
through the methods, and each method of ArenaLog becomes a pure function that
returns the raised exception (if any), the object state after the call, the
backend state, and a trace of the backend operations it performed.
-/

namespace PyArena

/-- Platform identifier for Windows, as returned by platform.system(). -/
def WINDOWS_PLATFORM_IDENTIFIER : String := "Windows"

/-- Company subfolder below the LocalLow directory. -/
def COMPANY_SUBFOLDER_NAME : String := "Wizards Of The Coast"

/-- Application subfolder below the company subfolder. -/
def APPLICATION_SUBFOLDER_NAME : String := "MTGA"

/-- Well-known filename of the current logfile. -/
def CURRENT_LOGFILE_NAME : String := "Player.log"

/-- Well-known filename of the rotated-out previous logfile. -/
def PREVIOUS_LOGFILE_NAME : String := "Player-prev.log"

/-- Default timeout of the polling observer used on Windows. -/
def DEFAULT_POLLING_OBSERVER_INTERVAL : Nat := 1

/-- A filesystem path, embedded as its list of components. Paths are taken to
be already absolute and normalized, so Path.resolve() is the identity on this
representation; Path.parent is dropLast and the / operator is append. -/
abbrev FsPath := List String

/-- Path.name of pathlib: the final component, empty for the empty path. -/
def pathName (p : FsPath) : String := p.getLastD ""

/-- The exceptions the module can raise: TypeError for an unsupported path
type, ValueError for a nonexistent explicit path, the no-logfile RuntimeError,
NotImplementedError for an unsupported platform, and the
unable-to-stop-observer RuntimeError. -/
inductive PyError
  | typeError (msg : String)
  | valueError (msg : String)
  | noLogfileFound
  | unsupportedPlatform (plat : String)
  | unableToStopObserver
deriving DecidableEq

/-- Kind of a watchdog observer: PollingObserver with a timeout, or the native
platform Observer. -/
inductive ObsKind
  | polling (interval : Nat)
  | native
deriving DecidableEq

/-- Thread phase of one observer: never started, started, or stop requested
(stop() called, join() performed). -/
inductive ObsPhase
  | fresh
  | started
  | stopRequested
deriving DecidableEq

/-- The world of watchdog observers: a counter of allocated observer ids and,
for each id, its kind and its thread phase. -/
structure Backend where
  nextId : Nat
  kind : Nat → ObsKind
  phase : Nat → ObsPhase

/-- A backend in which no observer has been allocated yet. -/
def Backend.empty : Backend :=
  { nextId := 0, kind := fun _ => ObsKind.native, phase := fun _ => ObsPhase.fresh }

/-- ArenaLog.get_watchdog_observer: allocates a PollingObserver with the
default interval on Windows and a native Observer elsewhere; the fresh
observer is not yet started. Returns the new observer id and the backend. -/
def get_watchdog_observer (platformSystem : String) (b : Backend) : Nat × Backend :=
  let k : ObsKind :=
    if platformSystem = WINDOWS_PLATFORM_IDENTIFIER then
      ObsKind.polling DEFAULT_POLLING_OBSERVER_INTERVAL
    else ObsKind.native
  (b.nextId,
   { nextId := b.nextId + 1
     kind := fun j => if j = b.nextId then k else b.kind j
     phase := fun j => if j = b.nextId then ObsPhase.fresh else b.phase j })

/-- Observer.start(): the observer thread begins running. -/
def observerStart (i : Nat) (b : Backend) : Backend :=
  { b with phase := fun j => if j = i then ObsPhase.started else b.phase j }

/-- Observer.stop(): requests the observer thread to stop. -/
def observerStop (i : Nat) (b : Backend) : Backend :=
  { b with phase := fun j => if j = i then ObsPhase.stopRequested else b.phase j }

/-- Observer.is_alive() as observed by the code after stop() and join(): a
started observer is alive; an observer whose stop was requested and joined is
alive exactly when its thread fails to quiesce (the stubborn predicate of the
environment); a never-started or unallocated observer is not alive. -/
def obsAlive (stubborn : Nat → Bool) (b : Backend) (i : Nat) : Bool :=
  if i < b.nextId then
    match b.phase i with
    | ObsPhase.fresh => false
    | ObsPhase.started => true
    | ObsPhase.stopRequested => stubborn i
  else false

/-- The list of ids of currently alive observers. -/
def activeObservers (stubborn : Nat → Bool) (b : Backend) : List Nat :=
  (List.range b.nextId).filter (fun i => obsAlive stubborn b i)

/-- The number of currently alive observers. -/
def activeCount (stubborn : Nat → Bool) (b : Backend) : Nat :=
  (activeObservers stubborn b).length

/-- The ambient execution environment the module reads: the platform
identifier, the optional appdata environment variable (already parsed as a
path), the home directory, the filesystem existence predicate, and which
observer threads are stubborn (still report alive after stop and join). -/
structure Env where
  platformSystem : String
  appdataEnv : Option FsPath
  home : FsPath
  fs : FsPath → Bool
  stubborn : Nat → Bool

/-- The local appdata_locallow of find_logfile: the LocalLow base directory,
derived from the appdata environment variable (parent of the roaming
directory, then LocalLow) when it is set; the KeyError fallback derives it
from the home directory when the variable is unset. -/
def locallowDir (E : Env) : FsPath :=
  match E.appdataEnv with
  | some appdata_roaming => appdata_roaming.dropLast ++ ["LocalLow"]
  | none => E.home ++ ["AppData", "LocalLow"]

/-- The local logfile_path of find_logfile: the single known logfile location
probed on Windows, below the LocalLow base directory. -/
def knownLogfile (E : Env) : FsPath :=
  locallowDir E ++
    [COMPANY_SUBFOLDER_NAME, APPLICATION_SUBFOLDER_NAME, CURRENT_LOGFILE_NAME]

/-- ArenaLog.find_logfile: on Windows, the RuntimeError is raised when the
LocalLow base directory or the logfile below it does not exist, and the
logfile path is returned otherwise; on any other platform
NotImplementedError is raised. -/
def find_logfile (E : Env) : Except PyError FsPath :=
  if E.platformSystem = WINDOWS_PLATFORM_IDENTIFIER then
    if ¬ E.fs (locallowDir E) then Except.error PyError.noLogfileFound
    else if ¬ E.fs (knownLogfile E) then Except.error PyError.noLogfileFound
    else Except.ok (knownLogfile E)
  else Except.error (PyError.unsupportedPlatform E.platformSystem)

/-- A watchdog filesystem event: directory flag, source path and destination
path. The empty path stands for an absent or empty attribute; both are falsy
in Python, and the code only distinguishes truthiness. -/
structure RawEvent where
  is_directory : Bool
  src_path : FsPath
  dest_path : FsPath
deriving DecidableEq

/-- Modelled from the spec: the dispatch of the PatternMatchingEventHandler
superclass. The watchdog library is an external collaborator, not part of this
repository; per the spec its pattern filter delivers an event exactly when the
basename of the source or destination path matches one of the configured
patterns (directory events were already discarded by the override). -/
def patternMatch (patterns : List String) (e : RawEvent) : Bool :=
  (!e.dest_path.isEmpty && patterns.contains (pathName e.dest_path)) ||
  (!e.src_path.isEmpty && patterns.contains (pathName e.src_path))

/-- FileEventHandler.__init__: the patterns fixed at construction, from the
two well-known names and the basename of the path tracked at that moment. -/
def handlerPatterns (parentPath : FsPath) : List String :=
  [CURRENT_LOGFILE_NAME, PREVIOUS_LOGFILE_NAME, pathName parentPath]

/-- FileEventHandler.dispatch: a directory event is dropped; an event carrying
a truthy source path different from the currently tracked path is dropped;
everything else is handed to the superclass dispatch with its pattern
filter. -/
def dispatchDelivers (patterns : List String) (trackedPath : FsPath)
    (e : RawEvent) : Bool :=
  if e.is_directory then false
  else if e.src_path ≠ [] ∧ e.src_path ≠ trackedPath then false
  else patternMatch patterns e

/-- The delivery predicate as claim C1 words it: not a directory event, and
the source path equals the tracked path or its basename is one of the two
well-known logfile names. Stated from the spec, to be compared with
dispatchDelivers, which is the code. -/
def claimedDelivers (trackedPath : FsPath) (e : RawEvent) : Bool :=
  !e.is_directory &&
    (e.src_path == trackedPath ||
     pathName e.src_path == CURRENT_LOGFILE_NAME ||
     pathName e.src_path == PREVIOUS_LOGFILE_NAME)

/-- The ArenaLog object state: the tracked path, the id of the current
observer, the event handler wiring (the patterns while wired, none once
handle_log_deleted discards it), and the follow_current policy. -/
structure ArenaLog where
  path : FsPath
  observerId : Nat
  event_handler : Option (List String)
  follow_current : Bool
deriving DecidableEq

/-- A Python value passed as the path argument: None, a pathlib Path, a str,
or a value of some other truthy type. -/
inductive PyValue
  | none
  | path (p : FsPath)
  | str (s : String)
  | other
deriving DecidableEq

/-- Python falsiness of the path argument: None and the empty string are
falsy; a Path object is always truthy; other stands for a truthy value of an
unsupported type. -/
def pyFalsy : PyValue → Bool
  | PyValue.none => true
  | PyValue.str s => s.isEmpty
  | PyValue.path _ => false
  | PyValue.other => false

/-- Path(s) on a str argument: embedded as splitting on the separator. -/
def strToPath (s : String) : FsPath :=
  (s.splitOn "/").filter (fun c => !c.isEmpty)

/-- The observer selection of ArenaLog.__init__: a falsy observer argument
makes the constructor create one via get_watchdog_observer, otherwise the
provided observer is accepted and the backend is untouched. -/
def observerSelect (platformSystem : String) (observerArg : Option Nat)
    (b : Backend) : Nat × Backend :=
  match observerArg with
  | Option.none => get_watchdog_observer platformSystem b
  | Option.some i => (i, b)

/-- ArenaLog.__init__: a falsy path argument triggers automatic resolution;
a str is converted to a Path; any other non-Path value raises TypeError; a
resolved path that does not exist raises ValueError; then an observer is
selected or accepted, the event handler is wired, and the observer is
scheduled on the parent directory and started. -/
def ArenaLog.init (E : Env) (pathArg : PyValue) (observerArg : Option Nat)
    (follow_current : Bool) (b : Backend) : Except PyError (ArenaLog × Backend) :=
  match (if pyFalsy pathArg then find_logfile E
         else
           match pathArg with
           | PyValue.path p => Except.ok p
           | PyValue.str s => Except.ok (strToPath s)
           | _ => Except.error (PyError.typeError "Unsupported path type")) with
  | Except.error e => Except.error e
  | Except.ok path =>
    if E.fs path then
      Except.ok
        ({ path := path
           observerId := (observerSelect E.platformSystem observerArg b).1
           event_handler := Option.some (handlerPatterns path)
           follow_current := follow_current },
         observerStart (observerSelect E.platformSystem observerArg b).1
           (observerSelect E.platformSystem observerArg b).2)
    else Except.error (PyError.valueError "Provided file does not exist")

/-- One step of the trace of backend operations a method performs. -/
inductive TraceStep
  | resolveCall
  | stopObs (i : Nat)
  | joinObs (i : Nat)
  | aliveCheck (i : Nat)
  | createObs (i : Nat)
  | scheduleObs (i : Nat)
  | startObs (i : Nat)
deriving DecidableEq

/-- The outcome of a method call on a live ArenaLog object: the exception
raised if any, the object state after the call (a Python object keeps the
mutations made before a raise), the backend state, and the trace of backend
operations performed in order. -/
structure MethodResult where
  err : Option PyError
  al : ArenaLog
  backend : Backend
  trace : List TraceStep

/-- ArenaLog.handle_log_deleted: stops and joins the observer, raises the
unable-to-stop RuntimeError if it is still alive, and otherwise sets the
event handler to None. -/
def handle_log_deleted (E : Env) (al : ArenaLog) (b : Backend) : MethodResult :=
  if obsAlive E.stubborn (observerStop al.observerId b) al.observerId then
    { err := some PyError.unableToStopObserver, al := al
      backend := observerStop al.observerId b
      trace := [TraceStep.stopObs al.observerId, TraceStep.joinObs al.observerId,
                TraceStep.aliveCheck al.observerId] }
  else
    { err := none, al := { al with event_handler := none }
      backend := observerStop al.observerId b
      trace := [TraceStep.stopObs al.observerId, TraceStep.joinObs al.observerId,
                TraceStep.aliveCheck al.observerId] }

/-- ArenaLog.handle_log_moved: under follow_current the path is re-resolved
first (the assignment to self.path happens before any backend operation), then
the old observer is stopped and joined (raising if still alive), then a fresh
observer is created, scheduled on the parent of the new path and started.
Without follow_current the call delegates to handle_log_deleted. -/
def handle_log_moved (E : Env) (al : ArenaLog) (b : Backend) : MethodResult :=
  if al.follow_current then
    match find_logfile E with
    | Except.error e =>
      { err := some e, al := al, backend := b, trace := [TraceStep.resolveCall] }
    | Except.ok newPath =>
      if obsAlive E.stubborn (observerStop al.observerId b) al.observerId then
        { err := some PyError.unableToStopObserver
          al := { al with path := newPath }
          backend := observerStop al.observerId b
          trace := [TraceStep.resolveCall, TraceStep.stopObs al.observerId,
                    TraceStep.joinObs al.observerId, TraceStep.aliveCheck al.observerId] }
      else
        { err := none
          al := { al with path := newPath
                          observerId := (get_watchdog_observer E.platformSystem
                            (observerStop al.observerId b)).1 }
          backend := observerStart
            (get_watchdog_observer E.platformSystem (observerStop al.observerId b)).1
            (get_watchdog_observer E.platformSystem (observerStop al.observerId b)).2
          trace := [TraceStep.resolveCall, TraceStep.stopObs al.observerId,
                    TraceStep.joinObs al.observerId, TraceStep.aliveCheck al.observerId,
                    TraceStep.createObs (get_watchdog_observer E.platformSystem
                      (observerStop al.observerId b)).1,
                    TraceStep.scheduleObs (get_watchdog_observer E.platformSystem
                      (observerStop al.observerId b)).1,
                    TraceStep.startObs (get_watchdog_observer E.platformSystem
                      (observerStop al.observerId b)).1] }
  else handle_log_deleted E al b

/-- ArenaLog.__del__: stops and joins the observer and raises the
unable-to-stop RuntimeError if it is still alive; the event handler wiring is
not touched. -/
def del_method (E : Env) (al : ArenaLog) (b : Backend) : MethodResult :=
  if obsAlive E.stubborn (observerStop al.observerId b) al.observerId then
    { err := some PyError.unableToStopObserver, al := al
      backend := observerStop al.observerId b
      trace := [TraceStep.stopObs al.observerId, TraceStep.joinObs al.observerId,
                TraceStep.aliveCheck al.observerId] }
  else
    { err := none, al := al
      backend := observerStop al.observerId b
      trace := [TraceStep.stopObs al.observerId, TraceStep.joinObs al.observerId,
                TraceStep.aliveCheck al.observerId] }

/-- Ownership invariant: every alive observer of the backend is the one the
tracker owns; in particular at most one observer is alive. -/
def OwnsAlive (stubborn : Nat → Bool) (al : ArenaLog) (b : Backend) : Prop :=
  ∀ i, obsAlive stubborn b i = true → i = al.observerId

/-- Concrete LocalLow directory used in the worked examples. -/
def exLocalLow : FsPath := ["C:", "Users", "u", "AppData", "LocalLow"]

/-- Concrete known logfile location used in the worked examples. -/
def exLogfile : FsPath :=
  exLocalLow ++ [COMPANY_SUBFOLDER_NAME, APPLICATION_SUBFOLDER_NAME, CURRENT_LOGFILE_NAME]

/-- The explicit path of the rotation scenario in the spec. -/
def exTmpLog : FsPath := ["tmp", "Player.log"]

/-- Concrete filesystem: the explicit logfile, the LocalLow directory and the
known logfile location exist, nothing else does. -/
def exFs : FsPath → Bool := fun p => p == exTmpLog || p == exLocalLow || p == exLogfile

/-- Concrete Windows environment with a set appdata variable, the filesystem
above, and fully cooperative observer threads. -/
def exEnv : Env :=
  { platformSystem := "Windows"
    appdataEnv := some ["C:", "Users", "u", "AppData", "Roaming"]
    home := ["C:", "Users", "u"]
    fs := exFs
    stubborn := fun _ => false }

/-- The environment above with every observer thread stubborn: is_alive keeps
reporting true after stop and join. -/
def exEnvStub : Env := { exEnv with stubborn := fun _ => true }

/-- The environment above on an unrecognized platform. -/
def exEnvLinux : Env := { exEnv with platformSystem := "Linux" }

/-- A tracker watching the explicit path with observer 0, as after
construction with explicit path tmp/Player.log. -/
def exAl : ArenaLog :=
  { path := exTmpLog
    observerId := 0
    event_handler := some (handlerPatterns exTmpLog)
    follow_current := true }

/-- The backend in which exactly observer 0 has been allocated and started. -/
def exB : Backend :=
  { nextId := 1
    kind := fun _ => ObsKind.polling DEFAULT_POLLING_OBSERVER_INTERVAL
    phase := fun _ => ObsPhase.started }

/-- The construction of the rotation scenario: explicit path tmp/Player.log,
default observer, follow_current true, fresh backend. -/
def exInit : Except PyError (ArenaLog × Backend) :=
  ArenaLog.init exEnv (PyValue.path exTmpLog) Option.none true Backend.empty

/-- A tracker brought into the Stopped state by handle_log_deleted, for the
repeated-teardown example. -/
def exStopped : MethodResult := handle_log_deleted exEnv exAl exB

/-- Stopping one observer does not change the liveness of any other. -/
theorem obsAlive_stop_other {s : Nat → Bool} {b : Backend} {i j : Nat}
    (h : j ≠ i) : obsAlive s (observerStop i b) j = obsAlive s b j := by
  unfold obsAlive observerStop
  simp [h]

/-- Starting one observer does not change the liveness of any other. -/
theorem obsAlive_start_other {s : Nat → Bool} {b : Backend} {i j : Nat}
    (h : j ≠ i) : obsAlive s (observerStart i b) j = obsAlive s b j := by
  unfold obsAlive observerStart
  simp [h]

/-- A stopped and joined observer whose thread is not stubborn is not alive. -/
theorem obsAlive_stop_self {s : Nat → Bool} {b : Backend} {i : Nat}
    (h : s i = false) : obsAlive s (observerStop i b) i = false := by
  unfold obsAlive observerStop
  simp [h]

/-- After stopping the owned observer of a tracker satisfying the ownership
invariant, no observer is alive, provided the stopped one quiesced. -/
theorem stopped_none (s : Nat → Bool) (al : ArenaLog) (b : Backend)
    (hown : OwnsAlive s al b)
    (hstop : obsAlive s (observerStop al.observerId b) al.observerId = false) :
    ∀ i, obsAlive s (observerStop al.observerId b) i = false := by
  intro i
  by_cases hi : i = al.observerId
  · subst hi; exact hstop
  · rw [obsAlive_stop_other hi]
    rcases Bool.eq_false_or_eq_true (obsAlive s b i) with hval | hval
    · exact absurd (hown i hval) hi
    · exact hval

/-- After allocating and starting a fresh observer in a backend without alive
observers, the fresh observer is the only alive one. -/
theorem alive_start_fresh (s : Nat → Bool) (plat : String) (b : Backend)
    (hnone : ∀ i, obsAlive s b i = false) (j : Nat) :
    obsAlive s (observerStart (get_watchdog_observer plat b).1
      (get_watchdog_observer plat b).2) j = decide (j = b.nextId) := by
  unfold obsAlive observerStart get_watchdog_observer
  by_cases hj : j = b.nextId
  · subst hj
    simp
  · have hb := hnone j
    unfold obsAlive at hb
    rw [decide_eq_false hj]
    simp only [hj, if_false]
    by_cases hlt : j < b.nextId
    · rw [if_pos hlt] at hb
      rw [if_pos (Nat.lt_succ_of_lt hlt)]
      exact hb
    · rw [if_neg (by omega : ¬ j < b.nextId + 1)]

/-- Liveness after the rotation of handle_log_moved: the fresh observer is
alive and nothing else is, provided ownership held and the old observer
quiesced. -/
theorem alive_after_rotation (E : Env) (al : ArenaLog) (b : Backend)
    (hown : OwnsAlive E.stubborn al b)
    (hstop : obsAlive E.stubborn (observerStop al.observerId b) al.observerId = false)
    (j : Nat) :
    obsAlive E.stubborn (observerStart
      (get_watchdog_observer E.platformSystem (observerStop al.observerId b)).1
      (get_watchdog_observer E.platformSystem (observerStop al.observerId b)).2) j
      = decide (j = b.nextId) := by
  exact alive_start_fresh E.stubborn E.platformSystem (observerStop al.observerId b)
    (stopped_none E.stubborn al b hown hstop) j

/-- A filter over an initial range with an everywhere-false predicate. -/
theorem filter_range_eq_nil (n : Nat) (p : Nat → Bool) (h : ∀ i, p i = false) :
    (List.range n).filter p = [] := by
  apply List.filter_eq_nil_iff.mpr
  intro a _
  simp [h a]

/-- A filter over an initial range with a predicate holding exactly at the
last element. -/
theorem filter_range_succ_single (n : Nat) (p : Nat → Bool)
    (h : ∀ i, p i = decide (i = n)) :
    (List.range (n + 1)).filter p = [n] := by
  rw [List.range_succ, List.filter_append]
  have h1 : (List.range n).filter p = [] := by
    apply List.filter_eq_nil_iff.mpr
    intro a ha
    have halt : a < n := List.mem_range.mp ha
    rw [h a]
    simp
    omega
  rw [h1]
  simp [List.filter, h n]

/-- A duplicate-free list of naturals whose members are all equal has at most
one element. -/
theorem length_le_one_of_nodup_const {l : List Nat} {a : Nat}
    (hnd : l.Nodup) (hall : ∀ x ∈ l, x = a) : l.length ≤ 1 := by
  match l with
  | [] => simp
  | [_] => simp
  | x :: y :: tl =>
    exfalso
    have hx := hall x (by simp)
    have hy := hall y (by simp)
    rw [List.nodup_cons] at hnd
    exact hnd.1 (by simp [hx, hy])

/-- The ownership invariant bounds the number of alive observers by one. -/
theorem activeCount_le_one (s : Nat → Bool) (al : ArenaLog) (b : Backend)
    (h : OwnsAlive s al b) : activeCount s b ≤ 1 := by
  unfold activeCount activeObservers
  apply length_le_one_of_nodup_const (a := al.observerId)
  · exact (List.nodup_range _).filter _
  · intro x hx
    exact h x (List.mem_filter.mp hx).2

/-- Ownership is preserved by stopping the owned observer. -/
theorem owns_after_stop (s : Nat → Bool) (al : ArenaLog) (b : Backend)
    (hown : OwnsAlive s al b) :
    ∀ j, obsAlive s (observerStop al.observerId b) j = true → j = al.observerId := by
  intro j hj
  by_cases h : j = al.observerId
  · exact h
  · rw [obsAlive_stop_other h] at hj
    exact hown j hj

/-- The result of handle_log_moved when automatic resolution fails. -/
theorem moved_resolve_error (E : Env) (al : ArenaLog) (b : Backend) (e : PyError)
    (hf : al.follow_current = true) (hres : find_logfile E = Except.error e) :
    handle_log_moved E al b =
      { err := some e, al := al, backend := b, trace := [TraceStep.resolveCall] } := by
  unfold handle_log_moved
  rw [hres]
  simp [hf]

/-- The result of handle_log_moved when resolution succeeds but the old
observer fails to quiesce. -/
theorem moved_stubborn (E : Env) (al : ArenaLog) (b : Backend) (p : FsPath)
    (hf : al.follow_current = true) (hres : find_logfile E = Except.ok p)
    (halive : obsAlive E.stubborn (observerStop al.observerId b) al.observerId = true) :
    handle_log_moved E al b =
      { err := some PyError.unableToStopObserver
        al := { al with path := p }
        backend := observerStop al.observerId b
        trace := [TraceStep.resolveCall, TraceStep.stopObs al.observerId,
                  TraceStep.joinObs al.observerId, TraceStep.aliveCheck al.observerId] } := by
  unfold handle_log_moved
  rw [hres]
  simp [hf, halive]

/-- The result of handle_log_moved when resolution succeeds and the old
observer quiesces. -/
theorem moved_success (E : Env) (al : ArenaLog) (b : Backend) (p : FsPath)
    (hf : al.follow_current = true) (hres : find_logfile E = Except.ok p)
    (hstop : obsAlive E.stubborn (observerStop al.observerId b) al.observerId = false) :
    handle_log_moved E al b =
      { err := none
        al := { path := p, observerId := b.nextId,
                event_handler := al.event_handler,
                follow_current := al.follow_current }
        backend := observerStart
          (get_watchdog_observer E.platformSystem (observerStop al.observerId b)).1
          (get_watchdog_observer E.platformSystem (observerStop al.observerId b)).2
        trace := [TraceStep.resolveCall, TraceStep.stopObs al.observerId,
                  TraceStep.joinObs al.observerId, TraceStep.aliveCheck al.observerId,
                  TraceStep.createObs b.nextId, TraceStep.scheduleObs b.nextId,
                  TraceStep.startObs b.nextId] } := by
  unfold handle_log_moved
  rw [hres]
  simp [hf, hstop]
  rfl

/-- C1 (counterexample): a non-directory event whose basename is the
well-known current-log filename but whose source path differs from the
tracked path is delivered according to the claim, yet the code drops it:
the dispatch override rejects any truthy source path different from the
tracked path before the basename patterns are ever consulted. -/
theorem C1_counterexample :
    claimedDelivers exTmpLog
      { is_directory := false, src_path := ["other", "Player.log"], dest_path := [] } = true ∧
    dispatchDelivers (handlerPatterns exTmpLog) exTmpLog
      { is_directory := false, src_path := ["other", "Player.log"], dest_path := [] } = false := by
  decide

/-- C1 (amended): the event filter delivers a raw event exactly when the
event is not a directory event, its source path is absent or equal to the
currently tracked path, and the pattern filter of the superclass matches the
basename of its source or destination path against the configured patterns;
in particular an event whose basename is the current-log name but whose
source path is set and differs from the tracked path is dropped. -/
theorem C1_dispatch_characterization (ps : List String) (t : FsPath) (e : RawEvent) :
    dispatchDelivers ps t e = true ↔
      e.is_directory = false ∧ (e.src_path = [] ∨ e.src_path = t) ∧
      patternMatch ps e = true := by
  unfold dispatchDelivers
  split_ifs with h1 h2
  · simp [h1]
  · rw [Bool.not_eq_true] at h1
    simp [h1, h2.1, h2.2]
  · rw [Bool.not_eq_true] at h1
    have h3 : e.src_path = [] ∨ e.src_path = t := by
      rcases not_and_or.mp h2 with h | h
      · exact Or.inl (not_not.mp h)
      · exact Or.inr (not_not.mp h)
    simp [h1, h3]

/-- C2 (counterexample): the tracker constructed with the explicit path
tmp/Player.log, after a Moved event in an environment where both
tmp/Player.log and the platform-default logfile exist, tracks the
platform-default logfile found by automatic resolution, not the recreated
tmp/Player.log. -/
theorem C2_counterexample :
    (match exInit with
     | Except.ok s => (handle_log_moved exEnv s.1 s.2).al.path
     | Except.error _ => []) = exLogfile ∧ exLogfile ≠ exTmpLog := by
  decide

/-- C2 (amended): with follow_current true, a resolvable logfile and a
quiescing backend, handling a Moved event leaves the tracker watching with
its event wiring unchanged, the tracked path equal to the path returned by
automatic resolution — which need not equal the original explicit path — and
exactly one active watch handle, the freshly created one. -/
theorem C2_rotation_tracks_resolved_path (E : Env) (al : ArenaLog) (b : Backend)
    (p : FsPath) (hf : al.follow_current = true)
    (hres : find_logfile E = Except.ok p)
    (hstub : E.stubborn al.observerId = false)
    (hown : OwnsAlive E.stubborn al b) :
    (handle_log_moved E al b).err = none ∧
    (handle_log_moved E al b).al.path = p ∧
    (handle_log_moved E al b).al.event_handler = al.event_handler ∧
    activeObservers E.stubborn (handle_log_moved E al b).backend =
      [(handle_log_moved E al b).al.observerId] ∧
    activeCount E.stubborn (handle_log_moved E al b).backend = 1 := by
  have hstop : obsAlive E.stubborn (observerStop al.observerId b) al.observerId = false :=
    obsAlive_stop_self hstub
  rw [moved_success E al b p hf hres hstop]
  have hact : activeObservers E.stubborn (observerStart
      (get_watchdog_observer E.platformSystem (observerStop al.observerId b)).1
      (get_watchdog_observer E.platformSystem (observerStop al.observerId b)).2) =
      [b.nextId] := by
    unfold activeObservers
    exact filter_range_succ_single b.nextId _ (alive_after_rotation E al b hown hstop)
  refine ⟨rfl, rfl, rfl, hact, ?_⟩
  unfold activeCount
  rw [hact]
  rfl

/-- C2 (witness). -/
theorem C2_witness :
    (handle_log_moved exEnv exAl exB).err = none ∧
    (handle_log_moved exEnv exAl exB).al.path = exLogfile ∧
    (handle_log_moved exEnv exAl exB).al.event_handler = exAl.event_handler ∧
    activeObservers exEnv.stubborn (handle_log_moved exEnv exAl exB).backend =
      [(handle_log_moved exEnv exAl exB).al.observerId] ∧
    activeCount exEnv.stubborn (handle_log_moved exEnv exAl exB).backend = 1 := by
  apply C2_rotation_tracks_resolved_path exEnv exAl exB exLogfile rfl (by rfl) rfl
  intro i h
  unfold obsAlive at h
  split at h
  · next hlt =>
      have h1 : exB.nextId = 1 := rfl
      have h2 : exAl.observerId = 0 := rfl
      omega
  · exact Bool.noConfusion h

/-- C3 (counterexample): in a concrete successful rotation, the very first
step of the trace is the invocation of the path resolver, the resolver is not
invoked again later, and the stop of the old watch handle happens strictly
afterwards — contradicting the claimed stop-first ordering. -/
theorem C3_counterexample :
    (handle_log_moved exEnv exAl exB).trace.head? = some TraceStep.resolveCall ∧
    TraceStep.resolveCall ∉ (handle_log_moved exEnv exAl exB).trace.tail ∧
    TraceStep.stopObs 0 ∈ (handle_log_moved exEnv exAl exB).trace.tail := by
  decide

/-- C3 (amended): when a Moved event is handled with follow_current true, a
resolvable logfile and a quiescing backend, the re-resolution sequence
performs its steps in this order: first invoke the path resolver to find the
new current-log file, then stop and join the current watch handle (checking
that the backend quiesced), then acquire, schedule and start a fresh watch
handle. -/
theorem C3_resolution_precedes_stop (E : Env) (al : ArenaLog) (b : Backend)
    (p : FsPath) (hf : al.follow_current = true)
    (hres : find_logfile E = Except.ok p)
    (hstub : E.stubborn al.observerId = false) :
    (handle_log_moved E al b).trace =
      [TraceStep.resolveCall, TraceStep.stopObs al.observerId,
       TraceStep.joinObs al.observerId, TraceStep.aliveCheck al.observerId,
       TraceStep.createObs b.nextId, TraceStep.scheduleObs b.nextId,
       TraceStep.startObs b.nextId] := by
  rw [moved_success E al b p hf hres (obsAlive_stop_self hstub)]

/-- C3 (witness). -/
theorem C3_witness :
    (handle_log_moved exEnv exAl exB).trace =
      [TraceStep.resolveCall, TraceStep.stopObs 0, TraceStep.joinObs 0,
       TraceStep.aliveCheck 0, TraceStep.createObs 1, TraceStep.scheduleObs 1,
       TraceStep.startObs 1] :=
  C3_resolution_precedes_stop exEnv exAl exB exLogfile rfl (by rfl) rfl

/-- The result of handle_log_deleted when the observer quiesces. -/
theorem deleted_success (E : Env) (al : ArenaLog) (b : Backend)
    (hstop : obsAlive E.stubborn (observerStop al.observerId b) al.observerId = false) :
    handle_log_deleted E al b =
      { err := none, al := { al with event_handler := none }
        backend := observerStop al.observerId b
        trace := [TraceStep.stopObs al.observerId, TraceStep.joinObs al.observerId,
                  TraceStep.aliveCheck al.observerId] } := by
  unfold handle_log_deleted
  simp [hstop]

/-- The result of handle_log_deleted when the observer fails to quiesce. -/
theorem deleted_stubborn (E : Env) (al : ArenaLog) (b : Backend)
    (halive : obsAlive E.stubborn (observerStop al.observerId b) al.observerId = true) :
    handle_log_deleted E al b =
      { err := some PyError.unableToStopObserver, al := al
        backend := observerStop al.observerId b
        trace := [TraceStep.stopObs al.observerId, TraceStep.joinObs al.observerId,
                  TraceStep.aliveCheck al.observerId] } := by
  unfold handle_log_deleted
  simp [halive]

/-- The result of the teardown when the observer quiesces. -/
theorem del_success (E : Env) (al : ArenaLog) (b : Backend)
    (hstop : obsAlive E.stubborn (observerStop al.observerId b) al.observerId = false) :
    del_method E al b =
      { err := none, al := al
        backend := observerStop al.observerId b
        trace := [TraceStep.stopObs al.observerId, TraceStep.joinObs al.observerId,
                  TraceStep.aliveCheck al.observerId] } := by
  unfold del_method
  simp [hstop]

/-- The result of the teardown when the observer fails to quiesce. -/
theorem del_stubborn (E : Env) (al : ArenaLog) (b : Backend)
    (halive : obsAlive E.stubborn (observerStop al.observerId b) al.observerId = true) :
    del_method E al b =
      { err := some PyError.unableToStopObserver, al := al
        backend := observerStop al.observerId b
        trace := [TraceStep.stopObs al.observerId, TraceStep.joinObs al.observerId,
                  TraceStep.aliveCheck al.observerId] } := by
  unfold del_method
  simp [halive]

/-- Ownership is preserved by handle_log_deleted. -/
theorem owns_after_deleted (E : Env) (al : ArenaLog) (b : Backend)
    (hown : OwnsAlive E.stubborn al b) :
    OwnsAlive E.stubborn (handle_log_deleted E al b).al
      (handle_log_deleted E al b).backend := by
  rcases Bool.eq_false_or_eq_true
      (obsAlive E.stubborn (observerStop al.observerId b) al.observerId) with h | h
  · rw [deleted_stubborn E al b h]
    intro j hj
    exact owns_after_stop E.stubborn al b hown j hj
  · rw [deleted_success E al b h]
    intro j hj
    exact owns_after_stop E.stubborn al b hown j hj

/-- Ownership is preserved by the teardown. -/
theorem owns_after_del (E : Env) (al : ArenaLog) (b : Backend)
    (hown : OwnsAlive E.stubborn al b) :
    OwnsAlive E.stubborn (del_method E al b).al (del_method E al b).backend := by
  rcases Bool.eq_false_or_eq_true
      (obsAlive E.stubborn (observerStop al.observerId b) al.observerId) with h | h
  · rw [del_stubborn E al b h]
    intro j hj
    exact owns_after_stop E.stubborn al b hown j hj
  · rw [del_success E al b h]
    intro j hj
    exact owns_after_stop E.stubborn al b hown j hj

/-- Ownership is preserved by handle_log_moved. -/
theorem owns_after_moved (E : Env) (al : ArenaLog) (b : Backend)
    (hown : OwnsAlive E.stubborn al b) :
    OwnsAlive E.stubborn (handle_log_moved E al b).al
      (handle_log_moved E al b).backend := by
  rcases Bool.eq_false_or_eq_true al.follow_current with hf | hf
  · rcases hfr : find_logfile E with e | p
    · rw [moved_resolve_error E al b e hf hfr]
      exact hown
    · rcases Bool.eq_false_or_eq_true
          (obsAlive E.stubborn (observerStop al.observerId b) al.observerId) with h | h
      · rw [moved_stubborn E al b p hf hfr h]
        intro j hj
        exact owns_after_stop E.stubborn al b hown j hj
      · rw [moved_success E al b p hf hfr h]
        intro j hj
        rw [alive_after_rotation E al b hown h] at hj
        exact of_decide_eq_true hj
  · have hdel : handle_log_moved E al b = handle_log_deleted E al b := by
      unfold handle_log_moved
      simp [hf]
    rw [hdel]
    exact owns_after_deleted E al b hown

/-- Ownership holds after a successful construction in a backend without
alive observers. -/
theorem owns_after_init (E : Env) (pa : PyValue) (oa : Option Nat) (fc : Bool)
    (b : Backend) (s : ArenaLog × Backend)
    (hinit : ArenaLog.init E pa oa fc b = Except.ok s)
    (hnone : ∀ i, obsAlive E.stubborn b i = false) :
    OwnsAlive E.stubborn s.1 s.2 := by
  unfold ArenaLog.init at hinit
  split at hinit
  · exact Except.noConfusion hinit
  · split at hinit
    · injection hinit with h
      subst h
      cases oa with
      | none =>
        intro j hj
        rw [show observerSelect E.platformSystem Option.none b =
              get_watchdog_observer E.platformSystem b from rfl] at hj
        rw [alive_start_fresh E.stubborn E.platformSystem b hnone] at hj
        exact of_decide_eq_true hj
      | some i =>
        intro j hj
        rw [show observerSelect E.platformSystem (Option.some i) b = (i, b) from rfl] at hj
        by_cases hji : j = i
        · exact hji
        · rw [obsAlive_start_other hji] at hj
          rw [hnone j] at hj
          exact Bool.noConfusion hj
    · exact Except.noConfusion hinit

/-- The ownership invariant of the worked example tracker. -/
theorem exAl_owns : OwnsAlive exEnv.stubborn exAl exB := by
  intro i h
  unfold obsAlive at h
  split at h
  · next hlt =>
      have h1 : exB.nextId = 1 := rfl
      have h2 : exAl.observerId = 0 := rfl
      omega
  · exact Bool.noConfusion h

/-- C4: over construction, Moved handling, Deleted handling and teardown the
tracker owns every alive observer — hence at most one watch handle is active
at any reachable state — and in a successful rotation the operation trace
stops and joins the old handle strictly before the new handle is created,
scheduled and started. -/
theorem C4_single_watch_invariant (E : Env) (al : ArenaLog) (b : Backend)
    (hown : OwnsAlive E.stubborn al b) :
    (OwnsAlive E.stubborn (handle_log_moved E al b).al (handle_log_moved E al b).backend ∧
      activeCount E.stubborn (handle_log_moved E al b).backend ≤ 1) ∧
    (OwnsAlive E.stubborn (handle_log_deleted E al b).al (handle_log_deleted E al b).backend ∧
      activeCount E.stubborn (handle_log_deleted E al b).backend ≤ 1) ∧
    (OwnsAlive E.stubborn (del_method E al b).al (del_method E al b).backend ∧
      activeCount E.stubborn (del_method E al b).backend ≤ 1) ∧
    (∀ pa oa fc s, ArenaLog.init E pa oa fc b = Except.ok s →
      (∀ i, obsAlive E.stubborn b i = false) →
      OwnsAlive E.stubborn s.1 s.2 ∧ activeCount E.stubborn s.2 ≤ 1) ∧
    (al.follow_current = true → (handle_log_moved E al b).err = none →
      (handle_log_moved E al b).trace =
        [TraceStep.resolveCall, TraceStep.stopObs al.observerId,
         TraceStep.joinObs al.observerId, TraceStep.aliveCheck al.observerId,
         TraceStep.createObs b.nextId, TraceStep.scheduleObs b.nextId,
         TraceStep.startObs b.nextId]) := by
  refine ⟨⟨owns_after_moved E al b hown,
           activeCount_le_one _ _ _ (owns_after_moved E al b hown)⟩,
          ⟨owns_after_deleted E al b hown,
           activeCount_le_one _ _ _ (owns_after_deleted E al b hown)⟩,
          ⟨owns_after_del E al b hown,
           activeCount_le_one _ _ _ (owns_after_del E al b hown)⟩,
          ?_, ?_⟩
  · intro pa oa fc s hinit hnone
    exact ⟨owns_after_init E pa oa fc b s hinit hnone,
           activeCount_le_one _ _ _ (owns_after_init E pa oa fc b s hinit hnone)⟩
  · intro hf herr
    rcases hfr : find_logfile E with e | p
    · rw [moved_resolve_error E al b e hf hfr] at herr
      simp at herr
    · rcases Bool.eq_false_or_eq_true
          (obsAlive E.stubborn (observerStop al.observerId b) al.observerId) with h | h
      · rw [moved_stubborn E al b p hf hfr h] at herr
        simp at herr
      · rw [moved_success E al b p hf hfr h]

/-- C4 (witness). -/
theorem C4_witness :
    (OwnsAlive exEnv.stubborn (handle_log_moved exEnv exAl exB).al
        (handle_log_moved exEnv exAl exB).backend ∧
      activeCount exEnv.stubborn (handle_log_moved exEnv exAl exB).backend ≤ 1) ∧
    (OwnsAlive exEnv.stubborn (handle_log_deleted exEnv exAl exB).al
        (handle_log_deleted exEnv exAl exB).backend ∧
      activeCount exEnv.stubborn (handle_log_deleted exEnv exAl exB).backend ≤ 1) ∧
    (OwnsAlive exEnv.stubborn (del_method exEnv exAl exB).al
        (del_method exEnv exAl exB).backend ∧
      activeCount exEnv.stubborn (del_method exEnv exAl exB).backend ≤ 1) ∧
    (∀ pa oa fc s, ArenaLog.init exEnv pa oa fc exB = Except.ok s →
      (∀ i, obsAlive exEnv.stubborn exB i = false) →
      OwnsAlive exEnv.stubborn s.1 s.2 ∧ activeCount exEnv.stubborn s.2 ≤ 1) ∧
    (exAl.follow_current = true → (handle_log_moved exEnv exAl exB).err = none →
      (handle_log_moved exEnv exAl exB).trace =
        [TraceStep.resolveCall, TraceStep.stopObs exAl.observerId,
         TraceStep.joinObs exAl.observerId, TraceStep.aliveCheck exAl.observerId,
         TraceStep.createObs exB.nextId, TraceStep.scheduleObs exB.nextId,
         TraceStep.startObs exB.nextId]) :=
  C4_single_watch_invariant exEnv exAl exB exAl_owns

/-- C5: handling a Deleted event on a quiescing backend returns without
error, discards the event wiring, keeps the tracked path, and leaves zero
active watch handles; handling a Moved event with follow_current false is the
very same computation as handling a Deleted event. -/
theorem C5_deleted_reaches_stopped (E : Env) (al : ArenaLog) (b : Backend)
    (hstub : E.stubborn al.observerId = false)
    (hown : OwnsAlive E.stubborn al b) :
    (handle_log_deleted E al b).err = none ∧
    (handle_log_deleted E al b).al.event_handler = none ∧
    (handle_log_deleted E al b).al.path = al.path ∧
    activeCount E.stubborn (handle_log_deleted E al b).backend = 0 ∧
    (al.follow_current = false → handle_log_moved E al b = handle_log_deleted E al b) := by
  have hstop : obsAlive E.stubborn (observerStop al.observerId b) al.observerId = false :=
    obsAlive_stop_self hstub
  rw [deleted_success E al b hstop]
  refine ⟨rfl, rfl, rfl, ?_, ?_⟩
  · unfold activeCount activeObservers
    rw [filter_range_eq_nil _ _ (stopped_none E.stubborn al b hown hstop)]
    rfl
  · intro hf
    unfold handle_log_moved
    rw [deleted_success E al b hstop]
    simp [hf]

/-- C5 (witness). -/
theorem C5_witness :
    (handle_log_deleted exEnv exAl exB).err = none ∧
    (handle_log_deleted exEnv exAl exB).al.event_handler = none ∧
    (handle_log_deleted exEnv exAl exB).al.path = exAl.path ∧
    activeCount exEnv.stubborn (handle_log_deleted exEnv exAl exB).backend = 0 ∧
    (exAl.follow_current = false →
      handle_log_moved exEnv exAl exB = handle_log_deleted exEnv exAl exB) :=
  C5_deleted_reaches_stopped exEnv exAl exB rfl exAl_owns

/-- C6: for the stop/teardown operations — Deleted handling and the
interpreter teardown — when the backend still reports alive after the stop
and join, the RuntimeError is raised to the caller and the object is left
unchanged, so the event wiring is still in place and the transition to
Stopped is not completed; when the backend reports not alive, no error is
raised. -/
theorem C6_shutdown_error_surfaced (E : Env) (al : ArenaLog) (b : Backend)
    (hid : al.observerId < b.nextId) :
    (E.stubborn al.observerId = true →
      (handle_log_deleted E al b).err = some PyError.unableToStopObserver ∧
      (handle_log_deleted E al b).al = al ∧
      (del_method E al b).err = some PyError.unableToStopObserver ∧
      (del_method E al b).al = al) ∧
    (E.stubborn al.observerId = false →
      (handle_log_deleted E al b).err = none ∧ (del_method E al b).err = none) := by
  constructor
  · intro hs
    have halive : obsAlive E.stubborn (observerStop al.observerId b) al.observerId = true := by
      unfold obsAlive observerStop
      simp [hid, hs]
    rw [deleted_stubborn E al b halive, del_stubborn E al b halive]
    exact ⟨rfl, rfl, rfl, rfl⟩
  · intro hs
    rw [deleted_success E al b (obsAlive_stop_self hs),
        del_success E al b (obsAlive_stop_self hs)]
    exact ⟨rfl, rfl⟩

/-- C6 (witness). -/
theorem C6_witness :
    (exEnvStub.stubborn exAl.observerId = true →
      (handle_log_deleted exEnvStub exAl exB).err = some PyError.unableToStopObserver ∧
      (handle_log_deleted exEnvStub exAl exB).al = exAl ∧
      (del_method exEnvStub exAl exB).err = some PyError.unableToStopObserver ∧
      (del_method exEnvStub exAl exB).al = exAl) ∧
    (exEnvStub.stubborn exAl.observerId = false →
      (handle_log_deleted exEnvStub exAl exB).err = none ∧
      (del_method exEnvStub exAl exB).err = none) :=
  C6_shutdown_error_surfaced exEnvStub exAl exB (by decide)

/-- C7 (counterexample): a first teardown leaves the tracker Stopped without
error; a second teardown again returns without error, but its trace contains
a stop of the backend observer — the code does attempt a second backend stop,
there is no already-stopped guard. -/
theorem C7_counterexample :
    exStopped.err = none ∧
    (del_method exEnv exStopped.al exStopped.backend).err = none ∧
    TraceStep.stopObs 0 ∈ (del_method exEnv exStopped.al exStopped.backend).trace := by
  decide

/-- C7 (amended): invoking teardown on a tracker already in the Stopped state
(event wiring discarded, observer already stop-requested) raises no error and
leaves the object unchanged, but the backend stop and join are invoked again
unconditionally; the repeated stop is harmless because the backend has
already quiesced. -/
theorem C7_second_teardown_no_raise (E : Env) (al : ArenaLog) (b : Backend)
    (hstopped : al.event_handler = none)
    (hphase : b.phase al.observerId = ObsPhase.stopRequested)
    (hstub : E.stubborn al.observerId = false) :
    (del_method E al b).err = none ∧
    (del_method E al b).al = al ∧
    (del_method E al b).trace =
      [TraceStep.stopObs al.observerId, TraceStep.joinObs al.observerId,
       TraceStep.aliveCheck al.observerId] := by
  rw [del_success E al b (obsAlive_stop_self hstub)]
  exact ⟨rfl, rfl, rfl⟩

/-- C7 (witness). -/
theorem C7_witness :
    (del_method exEnv exStopped.al exStopped.backend).err = none ∧
    (del_method exEnv exStopped.al exStopped.backend).al = exStopped.al ∧
    (del_method exEnv exStopped.al exStopped.backend).trace =
      [TraceStep.stopObs exStopped.al.observerId, TraceStep.joinObs exStopped.al.observerId,
       TraceStep.aliveCheck exStopped.al.observerId] :=
  C7_second_teardown_no_raise exEnv exStopped.al exStopped.backend
    (by decide) (by decide) rfl

/-- C8: find_logfile fails with the unsupported-platform error exactly off
Windows; on Windows it fails with the not-found error exactly when the
LocalLow base directory (derived from the appdata environment variable, with
the home-directory fallback when unset) or the known logfile location below
it does not exist, and returns the known logfile location otherwise. -/
theorem C8_find_logfile_characterization (E : Env) :
    (E.platformSystem ≠ WINDOWS_PLATFORM_IDENTIFIER →
      find_logfile E = Except.error (PyError.unsupportedPlatform E.platformSystem)) ∧
    (E.platformSystem = WINDOWS_PLATFORM_IDENTIFIER →
      (find_logfile E = Except.error PyError.noLogfileFound ↔
        (E.fs (locallowDir E) = false ∨ E.fs (knownLogfile E) = false)) ∧
      (E.fs (locallowDir E) = true → E.fs (knownLogfile E) = true →
        find_logfile E = Except.ok (knownLogfile E))) := by
  constructor
  · intro h
    unfold find_logfile
    rw [if_neg h]
  · intro h
    constructor
    · constructor
      · intro he
        unfold find_logfile at he
        rw [if_pos h] at he
        by_cases h1 : E.fs (locallowDir E) = true
        · rw [if_neg (by simp [h1])] at he
          by_cases h2 : E.fs (knownLogfile E) = true
          · rw [if_neg (by simp [h2])] at he
            exact Except.noConfusion he
          · exact Or.inr (by simpa using h2)
        · exact Or.inl (by simpa using h1)
      · intro he
        unfold find_logfile
        rw [if_pos h]
        rcases he with h1 | h1
        · rw [if_pos (by simp [h1])]
        · by_cases h0 : E.fs (locallowDir E) = true
          · rw [if_neg (by simp [h0]), if_pos (by simp [h1])]
          · rw [if_pos (by simp [h0])]
    · intro h1 h2
      unfold find_logfile
      rw [if_pos h, if_neg (by simp [h1]), if_neg (by simp [h2])]

/-- C8 (witness). -/
theorem C8_witness :
    find_logfile exEnv = Except.ok (knownLogfile exEnv) ∧
    find_logfile exEnvLinux =
      Except.error (PyError.unsupportedPlatform exEnvLinux.platformSystem) :=
  ⟨((C8_find_logfile_characterization exEnv).2 rfl).2 (by decide) (by decide),
   (C8_find_logfile_characterization exEnvLinux).1 (by decide)⟩

/-- C9: with follow_current true, when automatic re-resolution fails during
the handling of a Moved event, the exception propagates before any backend
operation: the object and the backend are unchanged — the tracked path keeps
its old value and the old watch is untouched, so the tracker does not end
Stopped — and the trace contains only the resolver invocation. -/
theorem C9_failed_rotation_is_atomic (E : Env) (al : ArenaLog) (b : Backend)
    (e : PyError) (hf : al.follow_current = true)
    (hres : find_logfile E = Except.error e) :
    (handle_log_moved E al b).err = some e ∧
    (handle_log_moved E al b).al = al ∧
    (handle_log_moved E al b).backend = b ∧
    (handle_log_moved E al b).trace = [TraceStep.resolveCall] := by
  rw [moved_resolve_error E al b e hf hres]
  exact ⟨rfl, rfl, rfl, rfl⟩

/-- C9 (witness). -/
theorem C9_witness :
    (handle_log_moved exEnvLinux exAl exB).err =
      some (PyError.unsupportedPlatform exEnvLinux.platformSystem) ∧
    (handle_log_moved exEnvLinux exAl exB).al = exAl ∧
    (handle_log_moved exEnvLinux exAl exB).backend = exB ∧
    (handle_log_moved exEnvLinux exAl exB).trace = [TraceStep.resolveCall] :=
  C9_failed_rotation_is_atomic exEnvLinux exAl exB
    (PyError.unsupportedPlatform exEnvLinux.platformSystem) rfl (by rfl)

/-- Every error of find_logfile is the not-found or the unsupported-platform
error. -/
theorem find_logfile_error_cases (E : Env) (e : PyError)
    (h : find_logfile E = Except.error e) :
    e = PyError.noLogfileFound ∨ e = PyError.unsupportedPlatform E.platformSystem := by
  unfold find_logfile at h
  split_ifs at h with h1 h2 h3
  · injection h with h
    exact Or.inl h.symm
  · injection h with h
    exact Or.inl h.symm
  · injection h with h
    exact Or.inr h.symm

/-- A path returned by find_logfile exists on the filesystem. -/
theorem find_logfile_ok_exists (E : Env) (p : FsPath)
    (h : find_logfile E = Except.ok p) : E.fs p = true := by
  unfold find_logfile at h
  split_ifs at h with h1 h2 h3
  injection h with h
  subst h
  exact h3

/-- An error of a construction with a falsy path argument is an error of
automatic resolution. -/
theorem init_none_errors (E : Env) (oa : Option Nat) (fc : Bool) (b : Backend)
    (e : PyError)
    (he : ArenaLog.init E PyValue.none oa fc b = Except.error e) :
    e = PyError.noLogfileFound ∨ e = PyError.unsupportedPlatform E.platformSystem := by
  unfold ArenaLog.init at he
  rw [if_pos (by decide : pyFalsy PyValue.none = true)] at he
  split at he
  · rename_i x e2 hfr
    injection he with h
    exact h ▸ find_logfile_error_cases E e2 hfr
  · rename_i x p hfr
    rw [if_pos (find_logfile_ok_exists E p hfr)] at he
    simp at he

/-- C10: the empty string as explicit path argument is falsy, so construction
behaves exactly as with no path at all: it attempts automatic resolution, and
any construction failure is the resolution failure — the not-found or the
unsupported-platform error — never the type or existence error for the
provided empty string. -/
theorem C10_empty_string_means_auto (E : Env) (oa : Option Nat) (fc : Bool)
    (b : Backend) :
    ArenaLog.init E (PyValue.str "") oa fc b = ArenaLog.init E PyValue.none oa fc b ∧
    (∀ e, ArenaLog.init E (PyValue.str "") oa fc b = Except.error e →
      e = PyError.noLogfileFound ∨ e = PyError.unsupportedPlatform E.platformSystem) := by
  constructor
  · rfl
  · intro e he
    exact init_none_errors E oa fc b e he

/-- C10 (witness). -/
theorem C10_witness :
    ArenaLog.init exEnvLinux (PyValue.str "") Option.none true Backend.empty =
      ArenaLog.init exEnvLinux PyValue.none Option.none true Backend.empty ∧
    (PyError.unsupportedPlatform "Linux" = PyError.noLogfileFound ∨
      PyError.unsupportedPlatform "Linux" =
        PyError.unsupportedPlatform exEnvLinux.platformSystem) :=
  ⟨(C10_empty_string_means_auto exEnvLinux Option.none true Backend.empty).1,
   (C10_empty_string_means_auto exEnvLinux Option.none true Backend.empty).2
     (PyError.unsupportedPlatform "Linux") (by rfl)⟩

end PyArena
